import Mathlib

/-!
Shallow embedding of the model-compression entry point
(deepmd/entrypoints/compress.py) of the deepmd-kit repository.

External subsystems (tensor reading, TensorFlow graph construction, the
JSON codec of the standard library, argcheck.normalize, and the train,
freeze and transfer entry points) are modelled as an oracle record Env:
each oracle call either returns a value or raises a Python exception.
The function compress below mirrors the body of the Python function
statement by statement; it returns the ordered list of externally
visible events (tensor reads, graph-node creation, the control-file
write and the three stage calls) together with its outcome (normal
return or raised exception).  Python floats are modelled as rationals
and Python dicts as insertion-ordered association lists.
-/

namespace DeepMD

/-- Python exception values that can flow through compress. -/
inductive PyErr where
  | graphWithoutTensor : PyErr
  | graphTooLarge : PyErr
  | runtimeError : String → Option PyErr → PyErr
  | valueError : String → PyErr
  | keyError : String → PyErr
  | typeError : String → PyErr
  | assertionError : String → PyErr
  | otherError : String → PyErr

/-- JSON values as manipulated by the Python code.  Objects keep the
Python dict insertion order as an association list. -/
inductive Json where
  | null : Json
  | bool : Bool → Json
  | num : Rat → Json
  | str : String → Json
  | arr : List Json → Json
  | obj : List (String × Json) → Json

/-- Python dict subscript read d[k]: KeyError when the key is missing,
TypeError when the value is not a dict. -/
def Json.getKey : Json → String → Except PyErr Json
  | .obj fs, k =>
    match List.lookup k fs with
    | some v => .ok v
    | none => .error (.keyError k)
  | _, _ => .error (.typeError "object is not subscriptable")

/-- Update of an association list at a key: replace the first binding in
place when the key is present, append otherwise (Python dict item
assignment semantics). -/
def setAssoc : List (String × Json) → String → Json → List (String × Json)
  | [], k, v => [(k, v)]
  | p :: t, k, v => if p.1 = k then (k, v) :: t else p :: setAssoc t k v

/-- Python dict subscript assignment d[k] = v: TypeError when the target
is not a dict. -/
def Json.setKey : Json → String → Json → Except PyErr Json
  | .obj fs, k, v => .ok (.obj (setAssoc fs k v))
  | _, _, _ => .error (.typeError "object does not support item assignment")

/-- Statement j[k1][k2] = v of the Python code, as a functional update. -/
def setNested (j : Json) (k1 k2 : String) (v : Json) : Except PyErr Json := do
  let m ← j.getKey k1
  let m2 ← m.setKey k2 v
  j.setKey k1 m2

/-- Statement jdata["model"]["compress"][k] = v of the Python code. -/
def setCompressField (j : Json) (k : String) (v : Json) : Except PyErr Json := do
  let m ← j.getKey "model"
  let c ← m.getKey "compress"
  let c2 ← c.setKey k v
  let m2 ← m.setKey "compress" c2
  j.setKey "model" m2

/-- Digit scanner of the Python built-in int() on a str: decimal digits
with single underscores allowed between digits. -/
def pyDigitsAux : List Char → Nat → Bool → Option Nat
  | [], acc, lastDigit => if lastDigit then some acc else none
  | c :: cs, acc, lastDigit =>
    if c.isDigit then pyDigitsAux cs (acc * 10 + (c.toNat - 48)) true
    else if c = '_' then (if lastDigit then pyDigitsAux cs acc false else none)
    else none

/-- Signed integer literal body accepted by the Python built-in int(). -/
def pyIntBody : List Char → Option Int
  | '+' :: cs => (pyDigitsAux cs 0 false).map (fun n => (n : Int))
  | '-' :: cs => (pyDigitsAux cs 0 false).map (fun n => -(n : Int))
  | cs => (pyDigitsAux cs 0 false).map (fun n => (n : Int))

/-- Message of the ValueError raised by the Python built-in int() on a
bad literal (the repr quoting of the argument is left out). -/
def intErrMsg (s : String) : String :=
  "invalid literal for int() with base 10: " ++ s

/-- Whitespace stripping at both ends, as done by the Python built-in
int() before parsing. -/
def stripWS (cs : List Char) : List Char :=
  ((cs.dropWhile Char.isWhitespace).reverse.dropWhile Char.isWhitespace).reverse

/-- Python built-in int() applied to a str: surrounding whitespace is
stripped, then an optionally signed decimal literal is required;
otherwise a ValueError is raised.  Only ASCII digits are modelled. -/
def pyInt (s : String) : Except PyErr Int :=
  match pyIntBody (stripWS s.toList) with
  | some n => .ok n
  | none => .error (.valueError (intErrMsg s))

/-- Fixed-point rendering with six decimals, the %f formatting used in
the GraphTooLargeError translation message (floats are rationals in
this model, rounding half up). -/
def fmtFloat6 (q : Rat) : String :=
  let n : Int := (q * 1000000 + (1 : Rat) / 2).floor
  let sign := if n < 0 then "-" else ""
  let m := n.natAbs
  let fs := toString (m % 1000000)
  sign ++ toString (m / 1000000) ++ "." ++
    String.mk (List.replicate (6 - fs.length) '0') ++ fs

/-- Message of the RuntimeError that replaces a GraphWithoutTensorError
of either tensor read (adjacent Python string literals concatenate
without spaces). -/
def noTensorMsg (input : String) : String :=
  "The input frozen model: " ++ input ++
    " has no training script or min_nbor_dist information," ++
    "which is not supported by the model compression program." ++
    "Please consider using the dp convert-from interface to upgrade the model"

/-- Message of the RuntimeError that replaces a GraphTooLargeError of the
stage-1 train call. -/
def tooLargeMsg (step : Rat) : String :=
  "The uniform step size of the tabulation\x27s first table is " ++
    fmtFloat6 step ++ ", " ++
    "which is too small. This leads to a very large graph size, " ++
    "exceeding protobuf\x27s limitation (2 GB). You should try to " ++
    "increase the step size."

/-- Keyword arguments of the compress entry point. -/
structure Args where
  input : String
  output : String
  extrapolate : Int
  step : Rat
  frequency : String
  checkpoint_folder : String
  mpi_log : String
  log_path : Option String
  log_level : Int

/-- Keyword arguments passed to the train entry point. -/
structure TrainArgs where
  INPUT : String
  init_model : Option String
  restart : Option String
  output : String
  mpi_log : String
  log_level : Int
  log_path : Option String
  is_compress : Bool

/-- Keyword arguments passed to the freeze entry point. -/
structure FreezeArgs where
  checkpoint_folder : String
  output : String
  node_names : Option String

/-- Keyword arguments passed to the transfer entry point. -/
structure TransferArgs where
  old_model : String
  raw_model : String
  output : String

/-- Externally visible events of one compress run, in program order. -/
inductive Event where
  | getTensor : String → String → Event
  | tfConstantNode : Rat → String → Event
  | normalizeCall : Json → Event
  | writeFile : String → Json → Event
  | trainCall : TrainArgs → Event
  | freezeCall : FreezeArgs → Event
  | transferCall : TransferArgs → Event

/-- Oracle for every call that leaves compress: each external operation
either returns a value or raises a Python exception. -/
structure Env where
  readScript : Except PyErr String
  readMinNbor : Except PyErr Rat
  tfConstant : Rat → Except PyErr Unit
  jsonLoads : String → Except PyErr Json
  normalize : Json → Except PyErr Json
  writeControl : Json → Except PyErr Unit
  trainRun : TrainArgs → Except PyErr Unit
  freezeRun : FreezeArgs → Except PyErr Unit
  transferRun : TransferArgs → Except PyErr Unit

/-- Name of the control file written before stage 1. -/
def controlFile : String := "compress.json"

/-- Name of the training-script tensor. -/
def scriptTensor : String := "train_attr/training_script"

/-- Name of the min_nbor_dist tensor. -/
def minNborTensor : String := "train_attr/min_nbor_dist"

/-- Arguments of the stage-1 train call. -/
def mkTrainArgs (a : Args) : TrainArgs :=
  ⟨controlFile, none, none, controlFile, a.mpi_log, a.log_level, a.log_path, true⟩

/-- Arguments of the stage-2 freeze call. -/
def mkFreezeArgs (a : Args) : FreezeArgs :=
  ⟨a.checkpoint_folder, a.output, none⟩

/-- Arguments of the stage-3 transfer call. -/
def mkTransferArgs (a : Args) : TransferArgs :=
  ⟨a.input, a.output, a.output⟩

/-- Exception translation of the first try block: a
GraphWithoutTensorError becomes a RuntimeError chained from it, every
other exception is re-raised unchanged. -/
def translateNoTensor (input : String) : PyErr → PyErr
  | .graphWithoutTensor => .runtimeError (noTensorMsg input) (some .graphWithoutTensor)
  | e => e

/-- Exception translation of the stage-1 try block: a
GraphTooLargeError becomes a RuntimeError chained from it, every other
exception is re-raised unchanged. -/
def translateTooLarge (step : Rat) : PyErr → PyErr
  | .graphTooLarge => .runtimeError (tooLargeMsg step) (some .graphTooLarge)
  | e => e

/-- Configuration-assembly statements of compress: the five dict
assignments that build jdata["model"]["compress"], with int(frequency)
evaluated where the Python code evaluates it (on the right-hand side of
the last assignment). -/
def assemble (a : Args) (minNbor : Rat) (jdata : Json) : Except PyErr Json := do
  let j1 ← setNested jdata "model" "compress" (.obj [])
  let j2 ← setCompressField j1 "type" (.str "se_e2_a")
  let j3 ← setCompressField j2 "compress" (.bool true)
  let j4 ← setCompressField j3 "model_file" (.str a.input)
  let j5 ← setCompressField j4 "min_nbor_dist" (.num minNbor)
  let freq ← pyInt a.frequency
  setCompressField j5 "table_config"
    (.arr [.num (a.extrapolate : Rat), .num a.step, .num (10 * a.step),
           .num ((freq : Rat))])

/-- Test of the first assert: the Python equality comparisons of the
descriptor type with the strings se_a and se_e2_a. -/
def descTypeOk : Json → Bool
  | .str s => s == "se_a" || s == "se_e2_a"
  | _ => false

/-- Message of the first assert statement. -/
def typeAssertMsg : String :=
  "Model compression error: descriptor type must be se_a or se_e2_a!"

/-- Message of the second assert statement. -/
def resnetAssertMsg : String :=
  "Model compression error: descriptor resnet_dt must be false!"

/-- Embedding of the two assert statements that check the descriptor
section of the normalized configuration.  The second assert uses the
Python identity test with False, true only of the boolean False. -/
def checkDescriptor (j : Json) : Except PyErr Unit := do
  let m ← j.getKey "model"
  let d ← m.getKey "descriptor"
  let t ← d.getKey "type"
  if descTypeOk t then do
    let rd ← d.getKey "resnet_dt"
    match rd with
    | .bool false => .ok ()
    | _ => .error (.assertionError resnetAssertMsg)
  else
    .error (.assertionError typeAssertMsg)

/-- Embedding of the body of compress.  The returned list holds the
externally visible events in execution order; the Except value is the
outcome of the call. -/
def compress (env : Env) (a : Args) : List Event × Except PyErr Unit :=
  match env.readScript with
  | .error e =>
      ([.getTensor a.input scriptTensor], .error (translateNoTensor a.input e))
  | .ok tJdata =>
    match env.readMinNbor with
    | .error e =>
        ([.getTensor a.input scriptTensor, .getTensor a.input minNborTensor],
         .error (translateNoTensor a.input e))
    | .ok tMin =>
      let ev2 : List Event :=
        [.getTensor a.input scriptTensor, .getTensor a.input minNborTensor,
         .tfConstantNode tMin minNborTensor]
      match env.tfConstant tMin with
      | .error e => (ev2, .error e)
      | .ok _ =>
        match env.jsonLoads tJdata with
        | .error e => (ev2, .error e)
        | .ok jdata0 =>
          match assemble a tMin jdata0 with
          | .error e => (ev2, .error e)
          | .ok jdata1 =>
            let ev3 := ev2 ++ [.normalizeCall jdata1]
            match env.normalize jdata1 with
            | .error e => (ev3, .error e)
            | .ok jdata =>
              match checkDescriptor jdata with
              | .error e => (ev3, .error e)
              | .ok _ =>
                let ev4 := ev3 ++ [.writeFile controlFile jdata]
                match env.writeControl jdata with
                | .error e => (ev4, .error e)
                | .ok _ =>
                  let ta := mkTrainArgs a
                  let ev5 := ev4 ++ [.trainCall ta]
                  match env.trainRun ta with
                  | .error e => (ev5, .error (translateTooLarge a.step e))
                  | .ok _ =>
                    let fa := mkFreezeArgs a
                    let ev6 := ev5 ++ [.freezeCall fa]
                    match env.freezeRun fa with
                    | .error e => (ev6, .error e)
                    | .ok _ =>
                      let ga := mkTransferArgs a
                      let ev7 := ev6 ++ [.transferCall ga]
                      match env.transferRun ga with
                      | .error e => (ev7, .error e)
                      | .ok _ => (ev7, .ok ())

/-- Stage-call events among a trace. -/
def isStageEvent : Event → Bool
  | .trainCall _ => true
  | .freezeCall _ => true
  | .transferCall _ => true
  | _ => false

/-- Restriction of a trace to the three stage calls. -/
def stageEvents (t : List Event) : List Event := t.filter isStageEvent

/-- File-writing events among a trace. -/
def isWriteEvent : Event → Bool
  | .writeFile _ _ => true
  | _ => false

/-- Restriction of a trace to file writes. -/
def writeEvents (t : List Event) : List Event := t.filter isWriteEvent

/-- Sample parsed training script used by the witness runs. -/
def sampleScript : Json :=
  Json.obj [("model", Json.obj [("descriptor",
    Json.obj [("type", Json.str "se_a"), ("resnet_dt", Json.bool false)])])]

/-- Sample arguments used by the witness runs. -/
def argsW : Args := ⟨"in.pb", "out.pb", 5, 1, "10", "ckpt", "master", none, 20⟩

/-- Oracle on which every external call succeeds. -/
def envOk : Env :=
  ⟨.ok "script", .ok 1, fun _ => .ok (), fun _ => .ok sampleScript,
   fun j => .ok j, fun _ => .ok (), fun _ => .ok (), fun _ => .ok (),
   fun _ => .ok ()⟩

/-- Assembled configuration of the successful witness run. -/
def jW : Json :=
  match assemble argsW 1 sampleScript with
  | .ok j => j
  | .error _ => .null

/-- Full event trace of the successful witness run. -/
def traceW : List Event :=
  [.getTensor "in.pb" scriptTensor, .getTensor "in.pb" minNborTensor,
   .tfConstantNode 1 minNborTensor, .normalizeCall jW,
   .writeFile controlFile jW, .trainCall (mkTrainArgs argsW),
   .freezeCall (mkFreezeArgs argsW), .transferCall (mkTransferArgs argsW)]

/-- Oracle whose first tensor read raises GraphWithoutTensorError. -/
def envGWT : Env :=
  ⟨.error .graphWithoutTensor, .ok 1, fun _ => .ok (),
   fun _ => .ok sampleScript, fun j => .ok j, fun _ => .ok (),
   fun _ => .ok (), fun _ => .ok (), fun _ => .ok ()⟩

/-- Descriptor section with an unsupported type. -/
def badDescDesc : Json :=
  Json.obj [("type", Json.str "se_e3"), ("resnet_dt", Json.bool false)]

/-- Model section holding the unsupported descriptor. -/
def badDescModel : Json := Json.obj [("descriptor", badDescDesc)]

/-- Normalized configuration with an unsupported descriptor type. -/
def badDescScript : Json := Json.obj [("model", badDescModel)]

/-- Oracle whose normalize step yields an unsupported descriptor type. -/
def envBadDesc : Env :=
  ⟨.ok "script", .ok 1, fun _ => .ok (), fun _ => .ok sampleScript,
   fun _ => .ok badDescScript, fun _ => .ok (), fun _ => .ok (),
   fun _ => .ok (), fun _ => .ok ()⟩

/-- Arguments whose frequency string is not an integer literal. -/
def argsBadFreq : Args := ⟨"in.pb", "out.pb", 5, 1, "ten", "ckpt", "master", none, 20⟩

/-- Value of the model.compress section built by the assembly statements. -/
def compressSection (a : Args) (d : Rat) (freq : Int) : Json :=
  Json.obj [("type", Json.str "se_e2_a"), ("compress", Json.bool true),
    ("model_file", Json.str a.input), ("min_nbor_dist", Json.num d),
    ("table_config", Json.arr [Json.num (a.extrapolate : Rat), Json.num a.step,
      Json.num (10 * a.step), Json.num ((freq : Rat))])]

/-- Shape of the configuration between the assembly statements: the
parsed script with its model.compress entry set to c. -/
def canonJ (fs mfs : List (String × Json)) (c : Json) : Json :=
  Json.obj (setAssoc fs "model" (Json.obj (setAssoc mfs "compress" c)))

/-- Whole configuration produced by the assembly statements from a parsed
script whose model section is an object. -/
def assembledJson (a : Args) (d : Rat) (freq : Int)
    (fs mfs : List (String × Json)) : Json :=
  canonJ fs mfs (compressSection a d freq)

/-- Trace of a run that has reached the stage-1 train call. -/
def preTrace (a : Args) (d : Rat) (j1 j2 : Json) : List Event :=
  [Event.getTensor a.input scriptTensor, Event.getTensor a.input minNborTensor,
   Event.tfConstantNode d minNborTensor, Event.normalizeCall j1,
   Event.writeFile controlFile j2]

/-- Provenance of the argument of the normalize call: it is the assembly
of the parsed training script read from the input model. -/
def NormArg (env : Env) (a : Args) (j1 : Json) : Prop :=
  ∃ s d j0, env.readScript = Except.ok s ∧ env.readMinNbor = Except.ok d ∧
    env.jsonLoads s = Except.ok j0 ∧ assemble a d j0 = Except.ok j1

@[simp] lemma ok_bind {ε α β : Type} (a : α) (f : α → Except ε β) :
    (Except.ok a >>= f : Except ε β) = f a := rfl

@[simp] lemma error_bind {ε α β : Type} (e : ε) (f : α → Except ε β) :
    ((Except.error e : Except ε α) >>= f) = Except.error e := rfl

lemma lookup_setAssoc_self (fs : List (String × Json)) (k : String) (v : Json) :
    List.lookup k (setAssoc fs k v) = some v := by
  induction fs with
  | nil => simp [setAssoc, List.lookup]
  | cons p t ih =>
    by_cases h : p.1 = k
    · simp [setAssoc, h, List.lookup]
    · have hbeq : (k == p.1) = false :=
        beq_eq_false_iff_ne.mpr (fun hk => h hk.symm)
      simp [setAssoc, h, List.lookup, hbeq, ih]

lemma setAssoc_setAssoc (fs : List (String × Json)) (k : String) (v w : Json) :
    setAssoc (setAssoc fs k v) k w = setAssoc fs k w := by
  induction fs with
  | nil => simp [setAssoc]
  | cons p t ih =>
    by_cases h : p.1 = k
    · simp [setAssoc, h]
    · simp [setAssoc, h, ih]

lemma getKey_ok {j : Json} {k : String} {v : Json}
    (h : Json.getKey j k = Except.ok v) :
    ∃ fs, j = Json.obj fs ∧ List.lookup k fs = some v := by
  cases j <;> simp [Json.getKey] at h
  case obj fs =>
    cases hl : List.lookup k fs with
    | none => rw [hl] at h; exact absurd h (by simp)
    | some w =>
      rw [hl] at h
      obtain rfl : w = v := by injection h
      exact ⟨fs, rfl, hl⟩

lemma translateNoTensor_ne (input : String) {e : PyErr}
    (h : e ≠ PyErr.graphWithoutTensor) : translateNoTensor input e = e := by
  cases e <;> first | rfl | exact absurd rfl h

lemma translateTooLarge_ne (step : Rat) {e : PyErr}
    (h : e ≠ PyErr.graphTooLarge) : translateTooLarge step e = e := by
  cases e <;> first | rfl | exact absurd rfl h

lemma pyInt_not_ok {s : String} (h : ∀ n, pyInt s ≠ Except.ok n) :
    pyInt s = Except.error (PyErr.valueError (intErrMsg s)) := by
  cases hb : pyIntBody (stripWS s.toList) with
  | some n => exact absurd (by unfold pyInt; rw [hb]) (h n)
  | none => unfold pyInt; rw [hb]

lemma getKey_obj_of_lookup {fs : List (String × Json)} {k : String} {v : Json}
    (h : List.lookup k fs = some v) :
    Json.getKey (Json.obj fs) k = Except.ok v := by
  simp only [Json.getKey, h]

lemma setKey_obj (fs : List (String × Json)) (k : String) (v : Json) :
    Json.setKey (Json.obj fs) k v = Except.ok (Json.obj (setAssoc fs k v)) := rfl

lemma setNested_model (fs mfs : List (String × Json)) (v : Json)
    (hm : List.lookup "model" fs = some (Json.obj mfs)) :
    setNested (Json.obj fs) "model" "compress" v = Except.ok (canonJ fs mfs v) := by
  simp only [setNested, canonJ, Json.getKey, hm, Json.setKey, ok_bind]

lemma setCompressField_canon (fs mfs cs : List (String × Json)) (k : String)
    (v : Json) :
    setCompressField (canonJ fs mfs (Json.obj cs)) k v =
      Except.ok (canonJ fs mfs (Json.obj (setAssoc cs k v))) := by
  simp only [setCompressField, canonJ, Json.getKey, lookup_setAssoc_self,
    Json.setKey, ok_bind, setAssoc_setAssoc]

lemma assemble_eq (a : Args) (d : Rat) (fs mfs : List (String × Json))
    (hm : List.lookup "model" fs = some (Json.obj mfs)) :
    assemble a d (Json.obj fs) =
      match pyInt a.frequency with
      | .ok freq => Except.ok (assembledJson a d freq fs mfs)
      | .error e => Except.error e := by
  cases hp : pyInt a.frequency with
  | ok freq =>
    simp only [assemble, setNested_model fs mfs (Json.obj []) hm, ok_bind,
      setCompressField_canon, hp]
    rfl
  | error e =>
    simp only [assemble, setNested_model fs mfs (Json.obj []) hm, ok_bind,
      setCompressField_canon, hp, error_bind]

lemma assemble_ok_inv {a : Args} {d : Rat} {j0 j1 : Json}
    (h : assemble a d j0 = Except.ok j1) :
    ∃ fs mfs freq, j0 = Json.obj fs ∧
      List.lookup "model" fs = some (Json.obj mfs) ∧
      pyInt a.frequency = Except.ok freq ∧
      j1 = assembledJson a d freq fs mfs := by
  cases hg : Json.getKey j0 "model" with
  | error e =>
    have hz : assemble a d j0 = Except.error e := by
      simp only [assemble, setNested, hg, error_bind]
    rw [hz] at h
    exact Except.noConfusion h
  | ok m =>
    obtain ⟨fs, rfl, hl⟩ := getKey_ok hg
    by_cases hobj : ∃ mfs, m = Json.obj mfs
    · obtain ⟨mfs, rfl⟩ := hobj
      rw [assemble_eq a d fs mfs hl] at h
      cases hp : pyInt a.frequency with
      | ok freq =>
        rw [hp] at h
        exact ⟨fs, mfs, freq, rfl, hl, rfl, by cases h; rfl⟩
      | error e =>
        rw [hp] at h
        exact Except.noConfusion h
    · have hsk : Json.setKey m "compress" (Json.obj []) =
          Except.error (PyErr.typeError "object does not support item assignment") := by
        cases m with
        | obj mfs => exact absurd ⟨mfs, rfl⟩ hobj
        | null => rfl
        | bool b => rfl
        | num q => rfl
        | str s2 => rfl
        | arr xs => rfl
      have hz : assemble a d (Json.obj fs) =
          Except.error (PyErr.typeError "object does not support item assignment") := by
        simp only [assemble, setNested, hg, ok_bind, hsk, error_bind]
      rw [hz] at h
      exact Except.noConfusion h

lemma assembledJson_compress (a : Args) (d : Rat) (freq : Int)
    (fs mfs : List (String × Json)) :
    ∃ m, Json.getKey (assembledJson a d freq fs mfs) "model" = Except.ok m ∧
      Json.getKey m "compress" = Except.ok (compressSection a d freq) :=
  ⟨Json.obj (setAssoc mfs "compress" (compressSection a d freq)),
    getKey_obj_of_lookup (lookup_setAssoc_self fs "model" _),
    getKey_obj_of_lookup (lookup_setAssoc_self mfs "compress" _)⟩

lemma compress_eq_script_err (env : Env) (a : Args) {e : PyErr}
    (hs : env.readScript = Except.error e) :
    compress env a = ([Event.getTensor a.input scriptTensor],
      Except.error (translateNoTensor a.input e)) := by
  simp only [compress, hs]

lemma compress_eq_nbor_err (env : Env) (a : Args) {s : String} {e : PyErr}
    (hs : env.readScript = Except.ok s)
    (hn : env.readMinNbor = Except.error e) :
    compress env a = ([Event.getTensor a.input scriptTensor,
      Event.getTensor a.input minNborTensor],
      Except.error (translateNoTensor a.input e)) := by
  simp only [compress, hs, hn]

lemma compress_eq_tf_err (env : Env) (a : Args) {s : String} {d : Rat}
    {e : PyErr} (hs : env.readScript = Except.ok s)
    (hn : env.readMinNbor = Except.ok d)
    (ht : env.tfConstant d = Except.error e) :
    compress env a = ([Event.getTensor a.input scriptTensor,
      Event.getTensor a.input minNborTensor,
      Event.tfConstantNode d minNborTensor], Except.error e) := by
  simp only [compress, hs, hn, ht]

lemma compress_eq_loads_err (env : Env) (a : Args) {s : String} {d : Rat}
    {e : PyErr} (hs : env.readScript = Except.ok s)
    (hn : env.readMinNbor = Except.ok d) (ht : env.tfConstant d = Except.ok ())
    (hl : env.jsonLoads s = Except.error e) :
    compress env a = ([Event.getTensor a.input scriptTensor,
      Event.getTensor a.input minNborTensor,
      Event.tfConstantNode d minNborTensor], Except.error e) := by
  simp only [compress, hs, hn, ht, hl]

lemma compress_eq_assemble_err (env : Env) (a : Args) {s : String} {d : Rat}
    {j0 : Json} {e : PyErr} (hs : env.readScript = Except.ok s)
    (hn : env.readMinNbor = Except.ok d) (ht : env.tfConstant d = Except.ok ())
    (hl : env.jsonLoads s = Except.ok j0)
    (ha : assemble a d j0 = Except.error e) :
    compress env a = ([Event.getTensor a.input scriptTensor,
      Event.getTensor a.input minNborTensor,
      Event.tfConstantNode d minNborTensor], Except.error e) := by
  simp only [compress, hs, hn, ht, hl, ha]

lemma compress_eq_norm_err (env : Env) (a : Args) {s : String} {d : Rat}
    {j0 j1 : Json} {e : PyErr} (hs : env.readScript = Except.ok s)
    (hn : env.readMinNbor = Except.ok d) (ht : env.tfConstant d = Except.ok ())
    (hl : env.jsonLoads s = Except.ok j0) (ha : assemble a d j0 = Except.ok j1)
    (hnm : env.normalize j1 = Except.error e) :
    compress env a = ([Event.getTensor a.input scriptTensor,
      Event.getTensor a.input minNborTensor,
      Event.tfConstantNode d minNborTensor, Event.normalizeCall j1],
      Except.error e) := by
  simp only [compress, hs, hn, ht, hl, ha, hnm, List.cons_append,
    List.nil_append]

lemma compress_eq_check_err (env : Env) (a : Args) {s : String} {d : Rat}
    {j0 j1 j2 : Json} {e : PyErr} (hs : env.readScript = Except.ok s)
    (hn : env.readMinNbor = Except.ok d) (ht : env.tfConstant d = Except.ok ())
    (hl : env.jsonLoads s = Except.ok j0) (ha : assemble a d j0 = Except.ok j1)
    (hnm : env.normalize j1 = Except.ok j2)
    (hk : checkDescriptor j2 = Except.error e) :
    compress env a = ([Event.getTensor a.input scriptTensor,
      Event.getTensor a.input minNborTensor,
      Event.tfConstantNode d minNborTensor, Event.normalizeCall j1],
      Except.error e) := by
  simp only [compress, hs, hn, ht, hl, ha, hnm, hk, List.cons_append,
    List.nil_append]

lemma compress_eq_write_err (env : Env) (a : Args) {s : String} {d : Rat}
    {j0 j1 j2 : Json} {e : PyErr} (hs : env.readScript = Except.ok s)
    (hn : env.readMinNbor = Except.ok d) (ht : env.tfConstant d = Except.ok ())
    (hl : env.jsonLoads s = Except.ok j0) (ha : assemble a d j0 = Except.ok j1)
    (hnm : env.normalize j1 = Except.ok j2)
    (hk : checkDescriptor j2 = Except.ok ())
    (hw : env.writeControl j2 = Except.error e) :
    compress env a = (preTrace a d j1 j2, Except.error e) := by
  simp only [compress, hs, hn, ht, hl, ha, hnm, hk, hw, preTrace,
    List.cons_append, List.nil_append]

lemma compress_eq_train_err (env : Env) (a : Args) {s : String} {d : Rat}
    {j0 j1 j2 : Json} {e : PyErr} (hs : env.readScript = Except.ok s)
    (hn : env.readMinNbor = Except.ok d) (ht : env.tfConstant d = Except.ok ())
    (hl : env.jsonLoads s = Except.ok j0) (ha : assemble a d j0 = Except.ok j1)
    (hnm : env.normalize j1 = Except.ok j2)
    (hk : checkDescriptor j2 = Except.ok ())
    (hw : env.writeControl j2 = Except.ok ())
    (htr : env.trainRun (mkTrainArgs a) = Except.error e) :
    compress env a = (preTrace a d j1 j2 ++ [Event.trainCall (mkTrainArgs a)],
      Except.error (translateTooLarge a.step e)) := by
  simp only [compress, hs, hn, ht, hl, ha, hnm, hk, hw, htr, preTrace,
    List.cons_append, List.nil_append]

lemma compress_eq_freeze_err (env : Env) (a : Args) {s : String} {d : Rat}
    {j0 j1 j2 : Json} {e : PyErr} (hs : env.readScript = Except.ok s)
    (hn : env.readMinNbor = Except.ok d) (ht : env.tfConstant d = Except.ok ())
    (hl : env.jsonLoads s = Except.ok j0) (ha : assemble a d j0 = Except.ok j1)
    (hnm : env.normalize j1 = Except.ok j2)
    (hk : checkDescriptor j2 = Except.ok ())
    (hw : env.writeControl j2 = Except.ok ())
    (htr : env.trainRun (mkTrainArgs a) = Except.ok ())
    (hf : env.freezeRun (mkFreezeArgs a) = Except.error e) :
    compress env a = (preTrace a d j1 j2 ++ [Event.trainCall (mkTrainArgs a),
      Event.freezeCall (mkFreezeArgs a)], Except.error e) := by
  simp only [compress, hs, hn, ht, hl, ha, hnm, hk, hw, htr, hf, preTrace,
    List.cons_append, List.nil_append]

lemma compress_eq_transfer_err (env : Env) (a : Args) {s : String} {d : Rat}
    {j0 j1 j2 : Json} {e : PyErr} (hs : env.readScript = Except.ok s)
    (hn : env.readMinNbor = Except.ok d) (ht : env.tfConstant d = Except.ok ())
    (hl : env.jsonLoads s = Except.ok j0) (ha : assemble a d j0 = Except.ok j1)
    (hnm : env.normalize j1 = Except.ok j2)
    (hk : checkDescriptor j2 = Except.ok ())
    (hw : env.writeControl j2 = Except.ok ())
    (htr : env.trainRun (mkTrainArgs a) = Except.ok ())
    (hf : env.freezeRun (mkFreezeArgs a) = Except.ok ())
    (htt : env.transferRun (mkTransferArgs a) = Except.error e) :
    compress env a = (preTrace a d j1 j2 ++ [Event.trainCall (mkTrainArgs a),
      Event.freezeCall (mkFreezeArgs a), Event.transferCall (mkTransferArgs a)],
      Except.error e) := by
  simp only [compress, hs, hn, ht, hl, ha, hnm, hk, hw, htr, hf, htt, preTrace,
    List.cons_append, List.nil_append]

lemma compress_eq_ok (env : Env) (a : Args) {s : String} {d : Rat}
    {j0 j1 j2 : Json} (hs : env.readScript = Except.ok s)
    (hn : env.readMinNbor = Except.ok d) (ht : env.tfConstant d = Except.ok ())
    (hl : env.jsonLoads s = Except.ok j0) (ha : assemble a d j0 = Except.ok j1)
    (hnm : env.normalize j1 = Except.ok j2)
    (hk : checkDescriptor j2 = Except.ok ())
    (hw : env.writeControl j2 = Except.ok ())
    (htr : env.trainRun (mkTrainArgs a) = Except.ok ())
    (hf : env.freezeRun (mkFreezeArgs a) = Except.ok ())
    (htt : env.transferRun (mkTransferArgs a) = Except.ok ()) :
    compress env a = (preTrace a d j1 j2 ++ [Event.trainCall (mkTrainArgs a),
      Event.freezeCall (mkFreezeArgs a), Event.transferCall (mkTransferArgs a)],
      Except.ok ()) := by
  simp only [compress, hs, hn, ht, hl, ha, hnm, hk, hw, htr, hf, htt, preTrace,
    List.cons_append, List.nil_append]

lemma compress_shape (env : Env) (a : Args) :
    ((∃ e, (compress env a).2 = Except.error e) ∧
      stageEvents (compress env a).1 = [] ∧
      (∀ j, Event.normalizeCall j ∈ (compress env a).1 → NormArg env a j))
    ∨ (∃ d j1 j2 e, NormArg env a j1 ∧ env.normalize j1 = Except.ok j2 ∧
        env.trainRun (mkTrainArgs a) = Except.error e ∧
        (compress env a).1 = preTrace a d j1 j2 ++
          [Event.trainCall (mkTrainArgs a)] ∧
        (compress env a).2 = Except.error (translateTooLarge a.step e))
    ∨ (∃ d j1 j2 e, NormArg env a j1 ∧ env.normalize j1 = Except.ok j2 ∧
        env.trainRun (mkTrainArgs a) = Except.ok () ∧
        env.freezeRun (mkFreezeArgs a) = Except.error e ∧
        (compress env a).1 = preTrace a d j1 j2 ++
          [Event.trainCall (mkTrainArgs a), Event.freezeCall (mkFreezeArgs a)] ∧
        (compress env a).2 = Except.error e)
    ∨ (∃ d j1 j2, NormArg env a j1 ∧ env.normalize j1 = Except.ok j2 ∧
        env.trainRun (mkTrainArgs a) = Except.ok () ∧
        env.freezeRun (mkFreezeArgs a) = Except.ok () ∧
        (compress env a).1 = preTrace a d j1 j2 ++
          [Event.trainCall (mkTrainArgs a), Event.freezeCall (mkFreezeArgs a),
           Event.transferCall (mkTransferArgs a)] ∧
        (compress env a).2 = env.transferRun (mkTransferArgs a)) := by
  cases hs : env.readScript with
  | error e =>
    left
    have hq := compress_eq_script_err env a hs
    refine ⟨⟨translateNoTensor a.input e, by rw [hq]⟩,
      (by rw [hq]; try rfl), ?_⟩
    intro j hj
    rw [hq] at hj
    simp at hj
  | ok s =>
    cases hn : env.readMinNbor with
    | error e =>
      left
      have hq := compress_eq_nbor_err env a hs hn
      refine ⟨⟨translateNoTensor a.input e, by rw [hq]⟩,
        (by rw [hq]; try rfl), ?_⟩
      intro j hj
      rw [hq] at hj
      simp at hj
    | ok d =>
      cases ht : env.tfConstant d with
      | error e =>
        left
        have hq := compress_eq_tf_err env a hs hn ht
        refine ⟨⟨e, by rw [hq]⟩, (by rw [hq]; try rfl), ?_⟩
        intro j hj
        rw [hq] at hj
        simp at hj
      | ok u =>
        cases u
        cases hl : env.jsonLoads s with
        | error e =>
          left
          have hq := compress_eq_loads_err env a hs hn ht hl
          refine ⟨⟨e, by rw [hq]⟩, (by rw [hq]; try rfl), ?_⟩
          intro j hj
          rw [hq] at hj
          simp at hj
        | ok j0 =>
          cases ha : assemble a d j0 with
          | error e =>
            left
            have hq := compress_eq_assemble_err env a hs hn ht hl ha
            refine ⟨⟨e, by rw [hq]⟩, (by rw [hq]; try rfl), ?_⟩
            intro j hj
            rw [hq] at hj
            simp at hj
          | ok j1 =>
            cases hnm : env.normalize j1 with
            | error e =>
              left
              have hq := compress_eq_norm_err env a hs hn ht hl ha hnm
              refine ⟨⟨e, by rw [hq]⟩, (by rw [hq]; try rfl), ?_⟩
              intro j hj
              rw [hq] at hj
              simp at hj
              subst hj
              exact ⟨s, d, j0, hs, hn, hl, ha⟩
            | ok j2 =>
              cases hk : checkDescriptor j2 with
              | error e =>
                left
                have hq := compress_eq_check_err env a hs hn ht hl ha hnm hk
                refine ⟨⟨e, by rw [hq]⟩, (by rw [hq]; try rfl), ?_⟩
                intro j hj
                rw [hq] at hj
                simp at hj
                subst hj
                exact ⟨s, d, j0, hs, hn, hl, ha⟩
              | ok u2 =>
                cases u2
                cases hw : env.writeControl j2 with
                | error e =>
                  left
                  have hq := compress_eq_write_err env a hs hn ht hl ha hnm hk hw
                  refine ⟨⟨e, by rw [hq]⟩, (by rw [hq]; try rfl), ?_⟩
                  intro j hj
                  rw [hq] at hj
                  simp [preTrace] at hj
                  subst hj
                  exact ⟨s, d, j0, hs, hn, hl, ha⟩
                | ok u3 =>
                  cases u3
                  cases htr : env.trainRun (mkTrainArgs a) with
                  | error e =>
                    have hq := compress_eq_train_err env a hs hn ht hl ha hnm hk hw htr
                    refine Or.inr (Or.inl ⟨d, j1, j2, e,
                      ⟨s, d, j0, hs, hn, hl, ha⟩, ?_, ?_, ?_, ?_⟩) <;>
                      first
                        | exact hnm
                        | exact htr
                        | rfl
                        | (rw [hq]; try rfl)
                  | ok u4 =>
                    cases u4
                    cases hf : env.freezeRun (mkFreezeArgs a) with
                    | error e =>
                      have hq := compress_eq_freeze_err env a hs hn ht hl ha hnm hk hw htr hf
                      refine Or.inr (Or.inr (Or.inl ⟨d, j1, j2, e,
                        ⟨s, d, j0, hs, hn, hl, ha⟩, ?_, ?_, ?_, ?_, ?_⟩)) <;>
                        first
                          | exact hnm
                          | exact htr
                          | exact hf
                          | rfl
                          | (rw [hq]; try rfl)
                    | ok u5 =>
                      cases u5
                      cases htt : env.transferRun (mkTransferArgs a) with
                      | error e2 =>
                        have hq := compress_eq_transfer_err env a hs hn ht hl ha hnm hk hw htr hf htt
                        refine Or.inr (Or.inr (Or.inr ⟨d, j1, j2,
                          ⟨s, d, j0, hs, hn, hl, ha⟩, ?_, ?_, ?_, ?_, ?_⟩)) <;>
                          first
                            | exact hnm
                            | exact htr
                            | exact hf
                            | rfl
                            | (rw [hq]; try rfl)
                      | ok u6 =>
                        cases u6
                        have hq := compress_eq_ok env a hs hn ht hl ha hnm hk hw htr hf htt
                        refine Or.inr (Or.inr (Or.inr ⟨d, j1, j2,
                          ⟨s, d, j0, hs, hn, hl, ha⟩, ?_, ?_, ?_, ?_, ?_⟩)) <;>
                          first
                            | exact hnm
                            | exact htr
                            | exact hf
                            | rfl
                            | (rw [hq]; try rfl)

/-- C1: every invocation of compress that completes without raising
performs the three external stage calls exactly once each and in order:
first the train call on the control file with is_compress set, then the
freeze call, then the transfer call; no stage is skipped or reordered on
the success path. -/
theorem compress_success_runs_three_stages_in_order (env : Env) (a : Args)
    (h : (compress env a).2 = Except.ok ()) :
    stageEvents (compress env a).1 =
      [Event.trainCall (mkTrainArgs a), Event.freezeCall (mkFreezeArgs a),
       Event.transferCall (mkTransferArgs a)] := by
  rcases compress_shape env a with
    ⟨⟨e, he⟩, _, _⟩ | ⟨d, j1, j2, e, _, _, _, _, hr⟩ |
    ⟨d, j1, j2, e, _, _, _, _, _, hr⟩ | ⟨d, j1, j2, _, _, _, _, htrace, _⟩
  · rw [h] at he; exact absurd he (by simp)
  · rw [h] at hr; exact absurd hr (by simp)
  · rw [h] at hr; exact absurd hr (by simp)
  · rw [htrace]; simp [stageEvents, isStageEvent, preTrace]

/-- Witness for C1: a run on which every oracle call succeeds returns
normally and its stage-call trace is exactly train, freeze, transfer. -/
theorem compress_success_runs_three_stages_in_order_witness :
    (compress envOk argsW).2 = Except.ok () ∧
    stageEvents (compress envOk argsW).1 =
      [Event.trainCall (mkTrainArgs argsW), Event.freezeCall (mkFreezeArgs argsW),
       Event.transferCall (mkTransferArgs argsW)] :=
  ⟨rfl, compress_success_runs_three_stages_in_order envOk argsW rfl⟩

/-- C4: when either tensor read raises GraphWithoutTensorError, compress
raises the translated RuntimeError before writing any file and before
calling any of train, freeze or transfer. -/
theorem compress_graph_without_tensor_aborts (env : Env) (a : Args)
    (h : env.readScript = Except.error PyErr.graphWithoutTensor ∨
      ∃ s, env.readScript = Except.ok s ∧
        env.readMinNbor = Except.error PyErr.graphWithoutTensor) :
    (compress env a).2 = Except.error
      (PyErr.runtimeError (noTensorMsg a.input) (some PyErr.graphWithoutTensor)) ∧
    stageEvents (compress env a).1 = [] ∧
    writeEvents (compress env a).1 = [] := by
  rcases h with h | ⟨s, hs, hn⟩
  · have hq := compress_eq_script_err env a h
    exact ⟨(by rw [hq]; try rfl), (by rw [hq]; try rfl), (by rw [hq]; try rfl)⟩
  · have hq := compress_eq_nbor_err env a hs hn
    exact ⟨(by rw [hq]; try rfl), (by rw [hq]; try rfl), (by rw [hq]; try rfl)⟩

/-- Witness for C4: a run whose first tensor read raises
GraphWithoutTensorError ends in the translated RuntimeError with no
stage call and no file write. -/
theorem compress_graph_without_tensor_aborts_witness :
    (compress envGWT argsW).2 = Except.error
      (PyErr.runtimeError (noTensorMsg "in.pb") (some PyErr.graphWithoutTensor)) ∧
    stageEvents (compress envGWT argsW).1 = [] ∧
    writeEvents (compress envGWT argsW).1 = [] :=
  compress_graph_without_tensor_aborts envGWT argsW (Or.inl rfl)

/-- C5: every freeze call made by compress has the checkpoint_folder
argument as checkpoint folder, the output argument as destination and no
node name selection, and it happens exactly once, after the train call
has returned without raising. -/
theorem compress_freeze_call_spec (env : Env) (a : Args) (fa : FreezeArgs)
    (h : Event.freezeCall fa ∈ (compress env a).1) :
    fa = mkFreezeArgs a ∧ env.trainRun (mkTrainArgs a) = Except.ok () ∧
    (stageEvents (compress env a).1 =
        [Event.trainCall (mkTrainArgs a), Event.freezeCall (mkFreezeArgs a)] ∨
      stageEvents (compress env a).1 =
        [Event.trainCall (mkTrainArgs a), Event.freezeCall (mkFreezeArgs a),
         Event.transferCall (mkTransferArgs a)]) := by
  rcases compress_shape env a with
    ⟨_, hst, _⟩ | ⟨d, j1, j2, e, _, _, _, htrace, _⟩ |
    ⟨d, j1, j2, e, _, _, htr, _, htrace, _⟩ |
    ⟨d, j1, j2, _, _, htr, _, htrace, _⟩
  · exfalso
    have hmem : Event.freezeCall fa ∈ stageEvents (compress env a).1 :=
      List.mem_filter.mpr ⟨h, rfl⟩
    rw [hst] at hmem
    exact absurd hmem (by simp)
  · rw [htrace] at h
    exfalso
    simp [preTrace] at h
  · rw [htrace] at h
    simp [preTrace] at h
    subst h
    refine ⟨rfl, htr, Or.inl ?_⟩
    rw [htrace]
    simp [stageEvents, isStageEvent, preTrace]
  · rw [htrace] at h
    simp [preTrace] at h
    subst h
    refine ⟨rfl, htr, Or.inr ?_⟩
    rw [htrace]
    simp [stageEvents, isStageEvent, preTrace]

/-- Witness for C5: on the all-success run the freeze event is present
and the theorem yields its argument values and its position. -/
theorem compress_freeze_call_spec_witness :
    mkFreezeArgs argsW = mkFreezeArgs argsW ∧
    envOk.trainRun (mkTrainArgs argsW) = Except.ok () ∧
    (stageEvents (compress envOk argsW).1 =
        [Event.trainCall (mkTrainArgs argsW), Event.freezeCall (mkFreezeArgs argsW)] ∨
      stageEvents (compress envOk argsW).1 =
        [Event.trainCall (mkTrainArgs argsW), Event.freezeCall (mkFreezeArgs argsW),
         Event.transferCall (mkTransferArgs argsW)]) :=
  compress_freeze_call_spec envOk argsW (mkFreezeArgs argsW) (by
    rw [show (compress envOk argsW).1 = traceW from rfl]
    simp [traceW])

/-- C6: every transfer call made by compress has the original input
model as old model and the frozen output file as both raw model and
final output, and it happens exactly once, after freeze has returned. -/
theorem compress_transfer_call_spec (env : Env) (a : Args) (ga : TransferArgs)
    (h : Event.transferCall ga ∈ (compress env a).1) :
    ga = mkTransferArgs a ∧ env.trainRun (mkTrainArgs a) = Except.ok () ∧
    env.freezeRun (mkFreezeArgs a) = Except.ok () ∧
    stageEvents (compress env a).1 =
      [Event.trainCall (mkTrainArgs a), Event.freezeCall (mkFreezeArgs a),
       Event.transferCall (mkTransferArgs a)] := by
  rcases compress_shape env a with
    ⟨_, hst, _⟩ | ⟨d, j1, j2, e, _, _, _, htrace, _⟩ |
    ⟨d, j1, j2, e, _, _, _, _, htrace, _⟩ |
    ⟨d, j1, j2, _, _, htr, hf, htrace, _⟩
  · exfalso
    have hmem : Event.transferCall ga ∈ stageEvents (compress env a).1 :=
      List.mem_filter.mpr ⟨h, rfl⟩
    rw [hst] at hmem
    exact absurd hmem (by simp)
  · rw [htrace] at h
    exfalso
    simp [preTrace] at h
  · rw [htrace] at h
    exfalso
    simp [preTrace] at h
  · rw [htrace] at h
    simp [preTrace] at h
    subst h
    refine ⟨rfl, htr, hf, ?_⟩
    rw [htrace]
    simp [stageEvents, isStageEvent, preTrace]

/-- Witness for C6: on the all-success run the transfer event is present
and the theorem yields its argument values and its position. -/
theorem compress_transfer_call_spec_witness :
    mkTransferArgs argsW = mkTransferArgs argsW ∧
    envOk.trainRun (mkTrainArgs argsW) = Except.ok () ∧
    envOk.freezeRun (mkFreezeArgs argsW) = Except.ok () ∧
    stageEvents (compress envOk argsW).1 =
      [Event.trainCall (mkTrainArgs argsW), Event.freezeCall (mkFreezeArgs argsW),
       Event.transferCall (mkTransferArgs argsW)] :=
  compress_transfer_call_spec envOk argsW (mkTransferArgs argsW) (by
    rw [show (compress envOk argsW).1 = traceW from rfl]
    simp [traceW])

/-- C10: every run that reaches the stage-1 train call has written the
normalized configuration to the fixed control file compress.json right
before the train event, and the train call takes that same filename as
both its INPUT and its output with no init model and no restart. -/
theorem compress_writes_control_file_for_train (env : Env) (a : Args)
    (ta : TrainArgs) (h : Event.trainCall ta ∈ (compress env a).1) :
    ta = mkTrainArgs a ∧ ta.INPUT = "compress.json" ∧
    ta.output = "compress.json" ∧ ta.init_model = none ∧ ta.restart = none ∧
    ∃ j2 pre suf, (compress env a).1 =
        pre ++ Event.writeFile "compress.json" j2 :: Event.trainCall ta :: suf ∧
      ∃ j1, env.normalize j1 = Except.ok j2 := by
  rcases compress_shape env a with
    ⟨_, hst, _⟩ | ⟨d, j1, j2, e, _, hnm, _, htrace, _⟩ |
    ⟨d, j1, j2, e, _, hnm, _, _, htrace, _⟩ |
    ⟨d, j1, j2, _, hnm, _, _, htrace, _⟩
  · exfalso
    have hmem : Event.trainCall ta ∈ stageEvents (compress env a).1 :=
      List.mem_filter.mpr ⟨h, rfl⟩
    rw [hst] at hmem
    exact absurd hmem (by simp)
  · rw [htrace] at h
    simp [preTrace] at h
    subst h
    refine ⟨rfl, rfl, rfl, rfl, rfl,
      j2, [Event.getTensor a.input scriptTensor,
        Event.getTensor a.input minNborTensor,
        Event.tfConstantNode d minNborTensor, Event.normalizeCall j1], [], ?_,
      j1, hnm⟩
    rw [htrace]
    simp [preTrace, controlFile]
  · rw [htrace] at h
    simp [preTrace] at h
    subst h
    refine ⟨rfl, rfl, rfl, rfl, rfl,
      j2, [Event.getTensor a.input scriptTensor,
        Event.getTensor a.input minNborTensor,
        Event.tfConstantNode d minNborTensor, Event.normalizeCall j1],
      [Event.freezeCall (mkFreezeArgs a)], ?_, j1, hnm⟩
    rw [htrace]
    simp [preTrace, controlFile]
  · rw [htrace] at h
    simp [preTrace] at h
    subst h
    refine ⟨rfl, rfl, rfl, rfl, rfl,
      j2, [Event.getTensor a.input scriptTensor,
        Event.getTensor a.input minNborTensor,
        Event.tfConstantNode d minNborTensor, Event.normalizeCall j1],
      [Event.freezeCall (mkFreezeArgs a), Event.transferCall (mkTransferArgs a)],
      ?_, j1, hnm⟩
    rw [htrace]
    simp [preTrace, controlFile]

/-- Witness for C10: on the all-success run the train event is present
and the theorem yields its arguments and the write event before it. -/
theorem compress_writes_control_file_for_train_witness :
    mkTrainArgs argsW = mkTrainArgs argsW ∧
    (mkTrainArgs argsW).INPUT = "compress.json" ∧
    (mkTrainArgs argsW).output = "compress.json" ∧
    (mkTrainArgs argsW).init_model = none ∧
    (mkTrainArgs argsW).restart = none ∧
    ∃ j2 pre suf, (compress envOk argsW).1 =
        pre ++ Event.writeFile "compress.json" j2 ::
          Event.trainCall (mkTrainArgs argsW) :: suf ∧
      ∃ j1, envOk.normalize j1 = Except.ok j2 :=
  compress_writes_control_file_for_train envOk argsW (mkTrainArgs argsW) (by
    rw [show (compress envOk argsW).1 = traceW from rfl]
    simp [traceW])

/-- C2: compress performs exactly two exception translations: a
GraphWithoutTensorError of either tensor read becomes a RuntimeError
chained from it, and a GraphTooLargeError of the stage-1 train call
becomes a RuntimeError reporting the step parameter, chained from it;
every other exception raised at any point propagates untranslated. -/
theorem compress_exception_translation (env : Env) (a : Args) :
    (env.readScript = Except.error PyErr.graphWithoutTensor →
      (compress env a).2 = Except.error
        (PyErr.runtimeError (noTensorMsg a.input) (some PyErr.graphWithoutTensor)))
    ∧ (∀ e, env.readScript = Except.error e → e ≠ PyErr.graphWithoutTensor →
      (compress env a).2 = Except.error e)
    ∧ (∀ s, env.readScript = Except.ok s →
      env.readMinNbor = Except.error PyErr.graphWithoutTensor →
      (compress env a).2 = Except.error
        (PyErr.runtimeError (noTensorMsg a.input) (some PyErr.graphWithoutTensor)))
    ∧ (∀ s e, env.readScript = Except.ok s → env.readMinNbor = Except.error e →
      e ≠ PyErr.graphWithoutTensor → (compress env a).2 = Except.error e)
    ∧ (∀ s d e, env.readScript = Except.ok s → env.readMinNbor = Except.ok d →
      env.tfConstant d = Except.error e → (compress env a).2 = Except.error e)
    ∧ (∀ s d e, env.readScript = Except.ok s → env.readMinNbor = Except.ok d →
      env.tfConstant d = Except.ok () → env.jsonLoads s = Except.error e →
      (compress env a).2 = Except.error e)
    ∧ (∀ s d j0 e, env.readScript = Except.ok s → env.readMinNbor = Except.ok d →
      env.tfConstant d = Except.ok () → env.jsonLoads s = Except.ok j0 →
      assemble a d j0 = Except.error e → (compress env a).2 = Except.error e)
    ∧ (∀ s d j0 j1 e, env.readScript = Except.ok s →
      env.readMinNbor = Except.ok d → env.tfConstant d = Except.ok () →
      env.jsonLoads s = Except.ok j0 → assemble a d j0 = Except.ok j1 →
      env.normalize j1 = Except.error e → (compress env a).2 = Except.error e)
    ∧ (∀ s d j0 j1 j2 e, env.readScript = Except.ok s →
      env.readMinNbor = Except.ok d → env.tfConstant d = Except.ok () →
      env.jsonLoads s = Except.ok j0 → assemble a d j0 = Except.ok j1 →
      env.normalize j1 = Except.ok j2 → checkDescriptor j2 = Except.error e →
      (compress env a).2 = Except.error e)
    ∧ (∀ s d j0 j1 j2 e, env.readScript = Except.ok s →
      env.readMinNbor = Except.ok d → env.tfConstant d = Except.ok () →
      env.jsonLoads s = Except.ok j0 → assemble a d j0 = Except.ok j1 →
      env.normalize j1 = Except.ok j2 → checkDescriptor j2 = Except.ok () →
      env.writeControl j2 = Except.error e → (compress env a).2 = Except.error e)
    ∧ (∀ s d j0 j1 j2, env.readScript = Except.ok s →
      env.readMinNbor = Except.ok d → env.tfConstant d = Except.ok () →
      env.jsonLoads s = Except.ok j0 → assemble a d j0 = Except.ok j1 →
      env.normalize j1 = Except.ok j2 → checkDescriptor j2 = Except.ok () →
      env.writeControl j2 = Except.ok () →
      env.trainRun (mkTrainArgs a) = Except.error PyErr.graphTooLarge →
      (compress env a).2 = Except.error
        (PyErr.runtimeError (tooLargeMsg a.step) (some PyErr.graphTooLarge)))
    ∧ (∀ s d j0 j1 j2 e, env.readScript = Except.ok s →
      env.readMinNbor = Except.ok d → env.tfConstant d = Except.ok () →
      env.jsonLoads s = Except.ok j0 → assemble a d j0 = Except.ok j1 →
      env.normalize j1 = Except.ok j2 → checkDescriptor j2 = Except.ok () →
      env.writeControl j2 = Except.ok () →
      env.trainRun (mkTrainArgs a) = Except.error e →
      e ≠ PyErr.graphTooLarge → (compress env a).2 = Except.error e)
    ∧ (∀ s d j0 j1 j2 e, env.readScript = Except.ok s →
      env.readMinNbor = Except.ok d → env.tfConstant d = Except.ok () →
      env.jsonLoads s = Except.ok j0 → assemble a d j0 = Except.ok j1 →
      env.normalize j1 = Except.ok j2 → checkDescriptor j2 = Except.ok () →
      env.writeControl j2 = Except.ok () →
      env.trainRun (mkTrainArgs a) = Except.ok () →
      env.freezeRun (mkFreezeArgs a) = Except.error e →
      (compress env a).2 = Except.error e)
    ∧ (∀ s d j0 j1 j2 e, env.readScript = Except.ok s →
      env.readMinNbor = Except.ok d → env.tfConstant d = Except.ok () →
      env.jsonLoads s = Except.ok j0 → assemble a d j0 = Except.ok j1 →
      env.normalize j1 = Except.ok j2 → checkDescriptor j2 = Except.ok () →
      env.writeControl j2 = Except.ok () →
      env.trainRun (mkTrainArgs a) = Except.ok () →
      env.freezeRun (mkFreezeArgs a) = Except.ok () →
      env.transferRun (mkTransferArgs a) = Except.error e →
      (compress env a).2 = Except.error e) := by
  refine ⟨?_, ?_, ?_, ?_, ?_, ?_, ?_, ?_, ?_, ?_, ?_, ?_, ?_, ?_⟩
  · intro h
    rw [compress_eq_script_err env a h]
    rfl
  · intro e h he
    rw [compress_eq_script_err env a h, translateNoTensor_ne a.input he]
  · intro s hs hn
    rw [compress_eq_nbor_err env a hs hn]
    rfl
  · intro s e hs hn he
    rw [compress_eq_nbor_err env a hs hn, translateNoTensor_ne a.input he]
  · intro s d e hs hn ht
    rw [compress_eq_tf_err env a hs hn ht]
  · intro s d e hs hn ht hl
    rw [compress_eq_loads_err env a hs hn ht hl]
  · intro s d j0 e hs hn ht hl ha
    rw [compress_eq_assemble_err env a hs hn ht hl ha]
  · intro s d j0 j1 e hs hn ht hl ha hnm
    rw [compress_eq_norm_err env a hs hn ht hl ha hnm]
  · intro s d j0 j1 j2 e hs hn ht hl ha hnm hk
    rw [compress_eq_check_err env a hs hn ht hl ha hnm hk]
  · intro s d j0 j1 j2 e hs hn ht hl ha hnm hk hw
    rw [compress_eq_write_err env a hs hn ht hl ha hnm hk hw]
  · intro s d j0 j1 j2 hs hn ht hl ha hnm hk hw htr
    rw [compress_eq_train_err env a hs hn ht hl ha hnm hk hw htr]
    rfl
  · intro s d j0 j1 j2 e hs hn ht hl ha hnm hk hw htr he
    rw [compress_eq_train_err env a hs hn ht hl ha hnm hk hw htr,
      translateTooLarge_ne a.step he]
  · intro s d j0 j1 j2 e hs hn ht hl ha hnm hk hw htr hf
    rw [compress_eq_freeze_err env a hs hn ht hl ha hnm hk hw htr hf]
  · intro s d j0 j1 j2 e hs hn ht hl ha hnm hk hw htr hf htt
    rw [compress_eq_transfer_err env a hs hn ht hl ha hnm hk hw htr hf htt]

/-- Witness for C2: the GraphWithoutTensorError translation fires on a
run whose first tensor read raises it. -/
theorem compress_exception_translation_witness :
    (compress envGWT argsW).2 = Except.error
      (PyErr.runtimeError (noTensorMsg "in.pb") (some PyErr.graphWithoutTensor)) :=
  (compress_exception_translation envGWT argsW).1 rfl

/-- C3: the argument of the normalize call is the parsed training script
with its model.compress section set to exactly the se_e2_a compression
request whose table_config third entry is ten times the step
parameter. -/
theorem compress_assembles_compress_section (env : Env) (a : Args) (j1 : Json)
    (h : Event.normalizeCall j1 ∈ (compress env a).1) :
    ∃ s d j0 freq, env.readScript = Except.ok s ∧
      env.readMinNbor = Except.ok d ∧ env.jsonLoads s = Except.ok j0 ∧
      assemble a d j0 = Except.ok j1 ∧ pyInt a.frequency = Except.ok freq ∧
      ∃ m, Json.getKey j1 "model" = Except.ok m ∧
        Json.getKey m "compress" = Except.ok (compressSection a d freq) := by
  have hnorm : NormArg env a j1 := by
    rcases compress_shape env a with
      ⟨_, _, hall⟩ | ⟨d, j1x, j2, e, hna, _, _, htrace, _⟩ |
      ⟨d, j1x, j2, e, hna, _, _, _, htrace, _⟩ |
      ⟨d, j1x, j2, hna, _, _, _, htrace, _⟩
    · exact hall j1 h
    · rw [htrace] at h
      simp [preTrace] at h
      subst h
      exact hna
    · rw [htrace] at h
      simp [preTrace] at h
      subst h
      exact hna
    · rw [htrace] at h
      simp [preTrace] at h
      subst h
      exact hna
  obtain ⟨s, d, j0, hs, hn, hl, ha⟩ := hnorm
  obtain ⟨fs, mfs, freq, rfl, hm, hp, rfl⟩ := assemble_ok_inv ha
  obtain ⟨m, hgm, hgc⟩ := assembledJson_compress a d freq fs mfs
  exact ⟨s, d, Json.obj fs, freq, hs, hn, hl, ha, hp, m, hgm, hgc⟩

/-- Witness for C3: on the all-success run the normalize event is
present and the theorem yields the assembled compress section. -/
theorem compress_assembles_compress_section_witness :
    ∃ j, Event.normalizeCall j ∈ (compress envOk argsW).1 ∧
      ∃ s d j0 freq, envOk.readScript = Except.ok s ∧
        envOk.readMinNbor = Except.ok d ∧ envOk.jsonLoads s = Except.ok j0 ∧
        assemble argsW d j0 = Except.ok j ∧
        pyInt argsW.frequency = Except.ok freq ∧
        ∃ m, Json.getKey j "model" = Except.ok m ∧
          Json.getKey m "compress" = Except.ok (compressSection argsW d freq) := by
  have hmem : Event.normalizeCall jW ∈ (compress envOk argsW).1 := by
    rw [show (compress envOk argsW).1 = traceW from rfl]
    simp [traceW]
  exact ⟨jW, hmem, compress_assembles_compress_section envOk argsW jW hmem⟩

/-- C8: when the normalized configuration reaches the descriptor checks
with a type other than se_a or se_e2_a, or with resnet_dt not the
boolean False, compress raises an AssertionError before writing the
control file and before any stage call. -/
theorem compress_descriptor_assert_aborts (env : Env) (a : Args) (s : String)
    (d : Rat) (j0 j1 j2 m dsc : Json)
    (hs : env.readScript = Except.ok s) (hn : env.readMinNbor = Except.ok d)
    (ht : env.tfConstant d = Except.ok ()) (hl : env.jsonLoads s = Except.ok j0)
    (ha : assemble a d j0 = Except.ok j1)
    (hnm : env.normalize j1 = Except.ok j2)
    (hm : Json.getKey j2 "model" = Except.ok m)
    (hd : Json.getKey m "descriptor" = Except.ok dsc)
    (hviol : (∃ t, Json.getKey dsc "type" = Except.ok t ∧ descTypeOk t = false) ∨
      (∃ t rd, Json.getKey dsc "type" = Except.ok t ∧ descTypeOk t = true ∧
        Json.getKey dsc "resnet_dt" = Except.ok rd ∧ rd ≠ Json.bool false)) :
    (∃ msg, (compress env a).2 = Except.error (PyErr.assertionError msg)) ∧
    stageEvents (compress env a).1 = [] ∧
    writeEvents (compress env a).1 = [] := by
  have hchk : ∃ msg, checkDescriptor j2 = Except.error (PyErr.assertionError msg) := by
    rcases hviol with ⟨t, hgt, hbad⟩ | ⟨t, rd, hgt, hok, hgr, hne⟩
    · exact ⟨typeAssertMsg, by simp [checkDescriptor, hm, hd, hgt, hbad]⟩
    · refine ⟨resnetAssertMsg, ?_⟩
      simp only [checkDescriptor, hm, hd, hgt, hok, hgr, ok_bind, if_true]
  obtain ⟨msg, hchk⟩ := hchk
  have hq := compress_eq_check_err env a hs hn ht hl ha hnm hchk
  exact ⟨⟨msg, (by rw [hq]; try rfl)⟩, (by rw [hq]; try rfl),
    (by rw [hq]; try rfl)⟩

/-- Witness for C8: a run whose normalized configuration has descriptor
type se_e3 ends in an AssertionError with no stage call and no write. -/
theorem compress_descriptor_assert_aborts_witness :
    (∃ msg, (compress envBadDesc argsW).2 =
      Except.error (PyErr.assertionError msg)) ∧
    stageEvents (compress envBadDesc argsW).1 = [] ∧
    writeEvents (compress envBadDesc argsW).1 = [] :=
  compress_descriptor_assert_aborts envBadDesc argsW "script" 1 sampleScript
    jW badDescScript badDescModel badDescDesc rfl rfl rfl rfl rfl rfl rfl rfl
    (Or.inl ⟨Json.str "se_e3", rfl, rfl⟩)

/-- C9: a frequency string that does not parse as an integer literal
makes compress raise the ValueError of int() during configuration
assembly, before any stage call and before the control file is written,
with no translation to RuntimeError. -/
theorem compress_bad_frequency_value_error (env : Env) (a : Args) (s : String)
    (d : Rat) (fs mfs : List (String × Json))
    (hs : env.readScript = Except.ok s) (hn : env.readMinNbor = Except.ok d)
    (ht : env.tfConstant d = Except.ok ())
    (hl : env.jsonLoads s = Except.ok (Json.obj fs))
    (hm : List.lookup "model" fs = some (Json.obj mfs))
    (hbad : ∀ n, pyInt a.frequency ≠ Except.ok n) :
    (compress env a).2 = Except.error (PyErr.valueError (intErrMsg a.frequency)) ∧
    stageEvents (compress env a).1 = [] ∧
    writeEvents (compress env a).1 = [] := by
  have hp := pyInt_not_ok hbad
  have ha : assemble a d (Json.obj fs) =
      Except.error (PyErr.valueError (intErrMsg a.frequency)) := by
    rw [assemble_eq a d fs mfs hm, hp]
  have hq := compress_eq_assemble_err env a hs hn ht hl ha
  exact ⟨(by rw [hq]; try rfl), (by rw [hq]; try rfl), (by rw [hq]; try rfl)⟩

/-- Witness for C9: the frequency string ten makes compress raise the
int() ValueError with no stage call and no write. -/
theorem compress_bad_frequency_value_error_witness :
    (compress envOk argsBadFreq).2 =
      Except.error (PyErr.valueError (intErrMsg "ten")) ∧
    stageEvents (compress envOk argsBadFreq).1 = [] ∧
    writeEvents (compress envOk argsBadFreq).1 = [] := by
  refine compress_bad_frequency_value_error envOk argsBadFreq "script" 1 _ _
    rfl rfl rfl rfl rfl ?_
  intro n h
  rw [show pyInt argsBadFreq.frequency =
    Except.error (PyErr.valueError (intErrMsg "ten")) from rfl] at h
  cases h

end DeepMD
